import Mathlib

/-!
Verification of the vesa document persistence/search facade.

Shallow embedding of `vesa/database/cozo_db.py` (the variant actually imported by
`vesa/database/vector_db.py` and `vesa/services/document_service.py`) and of
`vesa/services/document_service.py`.

Modelling conventions:
* Python dicts carrying metadata are association lists `List (String × MVal)`;
  JSON serialization (`json.dumps` / `json.loads`) is the identity on these maps,
  so stored metadata blobs are modelled as the decoded maps themselves.  A record
  whose blob failed to decode is modelled as a record whose metadata map is empty.
* `datetime` values are abstract timestamps modelled as `Nat`; `datetime.isoformat`
  and `datetime.fromisoformat` are modelled by an injective decimal rendering
  `isoformat` and its parser `fromisoformat` (round trip proved below), standing in
  for the ISO-8601 printer/parser pair.
* The embedded Cozo client is an external collaborator; its behaviour is a
  `ClientBehavior` record: whether the structured `put` succeeds, whether a manual
  `run` query succeeds, whether a delete query succeeds, whether the relation
  catalog query succeeds, the embedding provider, and the rows the HNSW vector
  search returns for a query (`Except Unit _`, with `.error` modelling a store
  exception).
* Python exceptions are `Except String` with the error message; a function whose
  Python counterpart swallows all failures returns a plain value.
-/

namespace Vesa

/-- Little-endian decimal digits of `n`; the first argument is fuel (structural
recursion), adequate when `n ≤ fuel`. -/
def natToDecAux : Nat → Nat → List Nat
  | 0, _ => []
  | f + 1, n => if n = 0 then [] else n % 10 :: natToDecAux f (n / 10)

/-- Little-endian decimal digits of `n`. -/
def natToDec (n : Nat) : List Nat := natToDecAux n n

/-- Value of a little-endian decimal digit list. -/
def decToNat : List Nat → Nat
  | [] => 0
  | d :: ds => d + 10 * decToNat ds

/-- The character for a decimal digit. -/
def digitChar (d : Nat) : Char := Char.ofNat (48 + d)

/-- The digit value of a character. -/
def charDigitVal (c : Char) : Nat := c.toNat - 48

/-- Whether a character is a decimal digit. -/
def isDigitCh (c : Char) : Bool := Nat.ble 48 c.toNat && Nat.ble c.toNat 57

/-- Model of `datetime.isoformat()`: an injective decimal rendering of the
abstract timestamp. -/
def isoformat (n : Nat) : String :=
  if n = 0 then "0" else String.mk (((natToDec n).map digitChar).reverse)

/-- Model of `datetime.fromisoformat()`: parses the rendering produced by
`isoformat`, failing on anything else. -/
def fromisoformat (s : String) : Option Nat :=
  if s.data.isEmpty then none
  else if s.data.all isDigitCh then
    some (decToNat ((s.data.reverse).map charDigitVal))
  else none

theorem decToNat_natToDecAux (f : Nat) : ∀ n, n ≤ f → decToNat (natToDecAux f n) = n := by
  induction f with
  | zero =>
    intro n hn
    have : n = 0 := Nat.le_zero.mp hn
    simp [natToDecAux, decToNat, this]
  | succ f ih =>
    intro n hn
    by_cases h0 : n = 0
    · simp [natToDecAux, decToNat, h0]
    · have hdiv : n / 10 ≤ f := by
        have : n / 10 < n := Nat.div_lt_self (Nat.pos_of_ne_zero h0) (by decide)
        omega
      simp only [natToDecAux, h0, if_false, decToNat]
      rw [ih (n / 10) hdiv]
      omega

theorem decToNat_natToDec (n : Nat) : decToNat (natToDec n) = n :=
  decToNat_natToDecAux n n (Nat.le_refl n)

theorem natToDecAux_digits_lt (f : Nat) :
    ∀ n d, d ∈ natToDecAux f n → d < 10 := by
  induction f with
  | zero => intro n d hd; simp [natToDecAux] at hd
  | succ f ih =>
    intro n d hd
    by_cases h0 : n = 0
    · simp [natToDecAux, h0] at hd
    · simp only [natToDecAux, h0, if_false, List.mem_cons] at hd
      rcases hd with h | h
      · subst h; exact Nat.mod_lt _ (by decide)
      · exact ih _ _ h

theorem natToDec_digits_lt (n : Nat) : ∀ d ∈ natToDec n, d < 10 :=
  fun d hd => natToDecAux_digits_lt n n d hd

theorem charDigitVal_digitChar {d : Nat} (h : d < 10) : charDigitVal (digitChar d) = d := by
  interval_cases d <;> decide

theorem isDigitCh_digitChar {d : Nat} (h : d < 10) : isDigitCh (digitChar d) = true := by
  interval_cases d <;> decide

theorem map_charDigitVal_map_digitChar (l : List Nat) (h : ∀ d ∈ l, d < 10) :
    (l.map digitChar).map charDigitVal = l := by
  induction l with
  | nil => rfl
  | cons d ds ih =>
    simp only [List.map_cons, List.cons.injEq]
    exact ⟨charDigitVal_digitChar (h d (List.mem_cons_self d ds)),
           ih (fun x hx => h x (List.mem_cons_of_mem d hx))⟩

theorem all_isDigitCh_map_digitChar (l : List Nat) (h : ∀ d ∈ l, d < 10) :
    (l.map digitChar).all isDigitCh = true := by
  induction l with
  | nil => rfl
  | cons d ds ih =>
    simp only [List.map_cons, List.all_cons, Bool.and_eq_true]
    exact ⟨isDigitCh_digitChar (h d (List.mem_cons_self d ds)),
           ih (fun x hx => h x (List.mem_cons_of_mem d hx))⟩

theorem natToDec_ne_nil {n : Nat} (h : n ≠ 0) : natToDec n ≠ [] := by
  cases n with
  | zero => exact absurd rfl h
  | succ m => simp [natToDec, natToDecAux]

/-- The modelled serialization round trip: a timestamp rendered by `isoformat`
parses back to itself with `fromisoformat`. -/
theorem fromisoformat_isoformat (n : Nat) : fromisoformat (isoformat n) = some n := by
  by_cases h0 : n = 0
  · subst h0; decide
  · have hne : ((natToDec n).map digitChar).reverse ≠ [] := by
      intro hcontra
      exact natToDec_ne_nil h0 (by simpa using hcontra)
    have hall : (((natToDec n).map digitChar).reverse).all isDigitCh = true := by
      rw [List.all_eq_true] at *
      intro c hc
      have hc' : c ∈ (natToDec n).map digitChar := List.mem_reverse.mp hc
      have := all_isDigitCh_map_digitChar (natToDec n) (natToDec_digits_lt n)
      rw [List.all_eq_true] at this
      exact this c hc'
    have hempty : (((natToDec n).map digitChar).reverse).isEmpty = false := by
      cases hcase : ((natToDec n).map digitChar).reverse with
      | nil => exact absurd hcase hne
      | cons c cs => rfl
    simp only [fromisoformat, isoformat, h0, if_false]
    show (if (((natToDec n).map digitChar).reverse).isEmpty then none
          else if (((natToDec n).map digitChar).reverse).all isDigitCh then
            some (decToNat (((((natToDec n).map digitChar).reverse).reverse).map charDigitVal))
          else none) = some n
    rw [hempty, hall]
    simp only [Bool.false_eq_true, if_false, if_true, List.reverse_reverse]
    rw [map_charDigitVal_map_digitChar (natToDec n) (natToDec_digits_lt n),
        decToNat_natToDec]

/-- A Python value stored in a metadata map: string, list of strings (tags),
datetime object, or None. -/
inductive MVal where
  | s (v : String)
  | ls (v : List String)
  | time (v : Nat)
  | null
deriving DecidableEq, Repr

/-- Association-list lookup (Python dict access, key comparison by equality). -/
def alook : List (String × MVal) → String → Option MVal
  | [], _ => none
  | (k, v) :: rest, key => if k = key then some v else alook rest key

/-- Python `dict.get(key, default)`. -/
def pyGetD (m : List (String × MVal)) (k : String) (d : MVal) : MVal :=
  (alook m k).getD d

/-- Python `dict[key]`: raises `KeyError` when absent. -/
def alookE (m : List (String × MVal)) (k : String) : Except String MVal :=
  match alook m k with
  | some v => .ok v
  | none => .error ("KeyError: " ++ k)

/-- pydantic coercion of a value into a `str` field. -/
def asStr : MVal → Option String
  | .s v => some v
  | _ => none

/-- pydantic coercion of a value into a `List[str]` field. -/
def asTags : MVal → Option (List String)
  | .ls v => some v
  | _ => none

/-- pydantic coercion of a value into an `Optional[str]` field. -/
def asPath : MVal → Option (Option String)
  | .s v => some (some v)
  | .null => some none
  | _ => none

/-- pydantic coercion of a value into a `datetime` field. -/
def asTime : MVal → Option Nat
  | .time t => some t
  | _ => none

/-- `CozoDatabase._process_metadata_for_storage`: converts datetime values to
their ISO-format strings, leaving every other value unchanged. -/
def process_metadata_for_storage (m : List (String × MVal)) : List (String × MVal) :=
  m.map (fun kv =>
    match kv with
    | (k, .time t) => (k, .s (isoformat t))
    | other => other)

/-- The tags branch of `DocumentService._process_metadata_for_model`: a string
value is split on commas and each item stripped; the empty string becomes the
empty list; non-string values are left unchanged. -/
def modelTags : MVal → MVal
  | .s str => .ls (if str = "" then [] else (str.splitOn ",").map (fun t => t.trim))
  | v => v

/-- The date branch of `DocumentService._process_metadata_for_model`: a string
value is parsed with `fromisoformat`, substituting the current time when parsing
fails; non-string values are left unchanged. -/
def modelDate (now : Nat) : MVal → MVal
  | .s str =>
    match fromisoformat str with
    | some t => .time t
    | none => .time now
  | v => v

/-- `DocumentService._process_metadata_for_model`: converts a stored tags string
back to a list and stored ISO date strings back to datetimes (defaulting to the
current time on parse failure). -/
def process_metadata_for_model (now : Nat) (m : List (String × MVal)) :
    List (String × MVal) :=
  m.map (fun kv =>
    (kv.1,
     if kv.1 = "tags" then modelTags kv.2
     else if kv.1 = "created_at" ∨ kv.1 = "updated_at" then modelDate now kv.2
     else kv.2))

/-- `vesa.models.document.DocumentMetadata`. -/
structure DocumentMetadata where
  author : String
  tags : List String
  created_at : Nat
  updated_at : Nat
  path : Option String
deriving DecidableEq, Repr

/-- `vesa.models.document.Document`. -/
structure Document where
  id : String
  title : String
  content : String
  metadata : DocumentMetadata
deriving DecidableEq, Repr

/-- `DocumentMetadata.dict()`: the field map of a metadata object. -/
def DocumentMetadata.toDict (dm : DocumentMetadata) : List (String × MVal) :=
  [("author", .s dm.author), ("tags", .ls dm.tags),
   ("created_at", .time dm.created_at), ("updated_at", .time dm.updated_at),
   ("path", match dm.path with | some p => .s p | none => .null)]

/-- `DocumentMetadata(**processed)`: pydantic construction with per-field
defaults (`""`, `[]`, `datetime.now()`, `None`); `none` models a
ValidationError; extra keys such as "title" are ignored. -/
def mkDocumentMetadata (m : List (String × MVal)) (now : Nat) :
    Option DocumentMetadata := do
  let author ← match alook m "author" with
    | none => some ""
    | some v => asStr v
  let tags ← match alook m "tags" with
    | none => some []
    | some v => asTags v
  let created ← match alook m "created_at" with
    | none => some now
    | some v => asTime v
  let updated ← match alook m "updated_at" with
    | none => some now
    | some v => asTime v
  let path ← match alook m "path" with
    | none => some none
    | some v => asPath v
  some ⟨author, tags, created, updated, path⟩

/-- A row returned by the store for the HNSW vector-search query:
distance, id, content, and the metadata blob (`none` models a metadata JSON
string that fails to decode). -/
structure SearchRow where
  dist : Rat
  id : String
  content : String
  md : Option (List (String × MVal))
deriving DecidableEq, Repr

/-- Behaviour of the external embedded-store client and embedding provider:
whether the structured `put` succeeds, whether a manual `run` query succeeds,
whether a delete query succeeds, whether the relation-catalog query succeeds,
the embedding function, and the store's response to the vector-search query
(`.error` models a raised store exception). -/
structure ClientBehavior where
  putOk : Bool
  runOk : Bool
  deleteOk : Bool
  catalogOk : Bool
  emb : String → List Int
  searchResp : String → Nat → Except Unit (List SearchRow)

/-- A row of the `vector_document` relation. -/
structure VecRec where
  id : String
  content : String
  embedding : List Int
  metadata : List (String × MVal)
  created_at : String
  updated_at : String
deriving DecidableEq, Repr

/-- The `vector_document` relation (id is the key; writes upsert by id). -/
abbrev VecStore := List VecRec

namespace CozoDatabase

/-- `CozoDatabase.add_vector_document`: computes the embedding, processes the
metadata, and upserts the record via the structured `put` call.  There is no
fallback: if the `put` raises, the exception is re-raised to the caller. -/
def add_vector_document (c : ClientBehavior) (st : VecStore) (docId content : String)
    (metadata : List (String × MVal)) (now : Nat) : Except String VecStore :=
  let embedding := c.emb content
  let processed := process_metadata_for_storage metadata
  if c.putOk then
    .ok (⟨docId, content, embedding, processed, isoformat now, isoformat now⟩
          :: st.filter (fun r => r.id != docId))
  else .error "Failed to add vector document"

/-- `CozoDatabase.delete_vector_document`: runs a delete query; any failure is
logged and swallowed (the store is returned unchanged), so this call never
raises. -/
def delete_vector_document (c : ClientBehavior) (st : VecStore) (docId : String) :
    VecStore :=
  if c.deleteOk then st.filter (fun r => r.id != docId) else st

/-- `CozoDatabase.update_vector_document`: delete then re-add; a failure of the
add step is re-raised wrapped as an update failure. -/
def update_vector_document (c : ClientBehavior) (st : VecStore) (docId content : String)
    (metadata : List (String × MVal)) (now : Nat) : Except String VecStore :=
  match add_vector_document c (delete_vector_document c st docId) docId content metadata now with
  | .ok st2 => .ok st2
  | .error _ => .error "Failed to update vector document"

/-- The dictionary returned by `CozoDatabase.get_vector_document`. -/
structure GetDocResult where
  id : String
  content : String
  metadata : List (String × MVal)
deriving DecidableEq, Repr

/-- `CozoDatabase.get_vector_document`: point lookup by id, returning `none`
when no row matches. -/
def get_vector_document (st : VecStore) (docId : String) : Option GetDocResult :=
  (st.find? (fun r => r.id == docId)).map (fun r => ⟨r.id, r.content, r.metadata⟩)

/-- A Python value inside a search-hit dictionary. -/
inductive PVal where
  | str (v : String)
  | num (q : Rat)
  | dict (m : List (String × MVal))
  | vnone
deriving DecidableEq, Repr

/-- Python `dict[key]` on a search-hit dictionary: raises `KeyError` when the
key is absent. -/
def plook : List (String × PVal) → String → Except String PVal
  | [], key => .error ("KeyError: " ++ key)
  | (k, v) :: rest, key => if k = key then .ok v else plook rest key

/-- `CozoDatabase.search_vector_documents`: runs the HNSW search; on a store
exception or when no rows match, returns the empty list (never raises).  Each
row is shaped into a dictionary with keys id, content, metadata and score,
where `score = 1 / (1 + dist)` for positive distance and `1.0` otherwise, and
an undecodable metadata blob is replaced by the empty map. -/
def search_vector_documents (c : ClientBehavior) (query : String) (n_results : Nat) :
    List (List (String × PVal)) :=
  match c.searchResp query n_results with
  | .error _ => []
  | .ok rows =>
    rows.map (fun row =>
      let metadata := row.md.getD []
      let score : Rat := if 0 < row.dist then 1 / (1 + row.dist) else 1
      [("id", .str row.id), ("content", .str row.content),
       ("metadata", .dict metadata), ("score", .num score)])

/-- A row of the `document` relation (graph node; `content` is always stored
empty by this facade). -/
structure GraphNode where
  id : String
  title : String
  content : String
  created_at : String
  updated_at : String
  metadata : List (String × MVal)
deriving DecidableEq, Repr

/-- A row of the `relationship` relation. -/
structure GraphRel where
  source_id : String
  target_id : String
  rel_type : String
  properties : List (String × MVal)
  created_at : String
  updated_at : String
deriving DecidableEq, Repr

/-- The graph overlay: the `document` and `relationship` relations. -/
structure GraphStore where
  docs : List GraphNode
  rels : List GraphRel
deriving DecidableEq, Repr

/-- `CozoDatabase.create_document_node`: tries the structured `put`; on failure
re-attempts once via a manually constructed query (quote-doubled escaping, which
the store's parser inverts, so the stored values are identical); raises only if
both attempts fail. -/
def create_document_node (c : ClientBehavior) (g : GraphStore) (docId title : String)
    (metadata : List (String × MVal)) (now : Nat) : Except String GraphStore :=
  let processed := process_metadata_for_storage metadata
  let node : GraphNode := ⟨docId, title, "", isoformat now, isoformat now, processed⟩
  if c.putOk then
    .ok ⟨node :: g.docs.filter (fun d => d.id != docId), g.rels⟩
  else if c.runOk then
    .ok ⟨node :: g.docs.filter (fun d => d.id != docId), g.rels⟩
  else .error "Error creating document"

/-- `CozoDatabase.create_relationship`: same two-tier write fallback as
`create_document_node`; all columns are keys, so a repeated insert with the same
timestamps is absorbed while distinct calls accumulate rows. -/
def create_relationship (c : ClientBehavior) (g : GraphStore)
    (source_id target_id rel_type : String) (properties : List (String × MVal))
    (now : Nat) : Except String GraphStore :=
  let processed := process_metadata_for_storage properties
  let rel : GraphRel := ⟨source_id, target_id, rel_type, processed, isoformat now, isoformat now⟩
  if c.putOk then .ok ⟨g.docs, rel :: g.rels⟩
  else if c.runOk then .ok ⟨g.docs, rel :: g.rels⟩
  else .error "Error creating relationship"

/-- A row returned by `CozoDatabase.get_related_documents`. -/
structure RelatedDoc where
  id : String
  title : String
  metadata : List (String × MVal)
  relationship_type : String
  relationship_properties : List (String × MVal)
deriving DecidableEq, Repr

/-- `CozoDatabase.get_related_documents`: joins `relationship` and `document`
rows with `source_id == doc_id` and `id == target_id`, with an optional
relationship-type filter. -/
def get_related_documents (g : GraphStore) (docId : String) (relType : Option String) :
    List RelatedDoc :=
  g.rels.flatMap (fun r =>
    if r.source_id == docId
        && (match relType with | none => true | some t => r.rel_type == t) then
      (g.docs.filter (fun d => d.id == r.target_id)).map
        (fun d => ⟨d.id, d.title, d.metadata, r.rel_type, r.properties⟩)
    else [])

/-- `CozoDatabase.delete_document_node`: deletes the document row and every
relationship row in which the node is the source or the target. -/
def delete_document_node (g : GraphStore) (docId : String) : GraphStore :=
  ⟨g.docs.filter (fun d => d.id != docId),
   g.rels.filter (fun r => !(r.source_id == docId || r.target_id == docId))⟩

/-- `vesa.models.document.DocumentRelationship` (also the shape of the
relationship rows returned by `CozoDatabase.get_document_graph`). -/
structure DocumentRelationship where
  source_id : String
  target_id : String
  relationship_type : String
  properties : List (String × MVal)
deriving DecidableEq, Repr

/-- The node dictionaries returned by `CozoDatabase.get_document_graph`. -/
structure GraphNodeView where
  id : String
  title : String
  metadata : List (String × MVal)
deriving DecidableEq, Repr

/-- The value returned by `CozoDatabase.get_document_graph`. -/
structure GraphView where
  nodes : List GraphNodeView
  relationships : List DocumentRelationship
deriving DecidableEq, Repr

/-- `CozoDatabase.get_document_graph`: runs two full-relation scans and returns
every node and every relationship; the `depth` argument is not used. -/
def get_document_graph (g : GraphStore) (depth : Nat) : GraphView :=
  ⟨g.docs.map (fun d => ⟨d.id, d.title, d.metadata⟩),
   g.rels.map (fun r => ⟨r.source_id, r.target_id, r.rel_type, r.properties⟩)⟩

/-- The store's schema catalog: the names of existing relations and of existing
HNSW indexes. -/
structure SchemaState where
  rels : List String
  idxs : List String
deriving DecidableEq, Repr

/-- `CozoDatabase._relation_exists`: queries the relation catalog and matches by
name; a failing catalog query is swallowed and reported as "does not exist". -/
def relation_exists (c : ClientBehavior) (ss : SchemaState) (name : String) : Bool :=
  if c.catalogOk then ss.rels.contains name else false

/-- Running a `::create` script: raises a duplicate-relation error when the
relation already exists, otherwise records it. -/
def createRelationScript (ss : SchemaState) (name : String) : Except String SchemaState :=
  if ss.rels.contains name then .error ("relation already exists: " ++ name)
  else .ok ⟨name :: ss.rels, ss.idxs⟩

/-- Running a `::hnsw create` script: raises when the index already exists,
otherwise records it. -/
def createIndexScript (ss : SchemaState) (name : String) : Except String SchemaState :=
  if ss.idxs.contains name then .error ("index already exists: " ++ name)
  else .ok ⟨ss.rels, name :: ss.idxs⟩

/-- Common shape of `CozoDatabase._create_document_schema` and
`_create_relationship_schema`: skip when not forced and the relation exists,
otherwise issue the creation script. -/
def ensure_simple_relation (c : ClientBehavior) (force : Bool) (ss : SchemaState)
    (name : String) : Except String SchemaState :=
  if !force && relation_exists c ss name then .ok ss
  else createRelationScript ss name

/-- `CozoDatabase._create_document_schema`. -/
def create_document_schema (c : ClientBehavior) (force : Bool) (ss : SchemaState) :
    Except String SchemaState :=
  ensure_simple_relation c force ss "document"

/-- `CozoDatabase._create_relationship_schema`. -/
def create_relationship_schema (c : ClientBehavior) (force : Bool) (ss : SchemaState) :
    Except String SchemaState :=
  ensure_simple_relation c force ss "relationship"

/-- `CozoDatabase._create_vector_document_schema`: skip when not forced and the
relation exists; otherwise create the relation and then its HNSW index. -/
def create_vector_document_schema (c : ClientBehavior) (force : Bool) (ss : SchemaState) :
    Except String SchemaState :=
  if !force && relation_exists c ss "vector_document" then .ok ss
  else do
    let ss2 ← createRelationScript ss "vector_document"
    createIndexScript ss2 "vector_document:embedding_idx"

/-- `CozoDatabase._verify_or_create_schemas`: ensures the three relations in
order. -/
def verify_or_create_schemas (c : ClientBehavior) (force : Bool) (ss : SchemaState) :
    Except String SchemaState := do
  let s1 ← create_document_schema c force ss
  let s2 ← create_relationship_schema c force s1
  create_vector_document_schema c force s2

end CozoDatabase

/-- Lifts a pydantic construction result into the exception monad. -/
def ofOption (o : Option α) (msg : String) : Except String α :=
  match o with
  | some a => .ok a
  | none => .error msg

/-- `vesa.models.document.DocumentSearchResult`. -/
structure DocumentSearchResult where
  document : Document
  score : Rat
deriving DecidableEq, Repr

/-- `vesa.models.document.DocumentGraph`. -/
structure DocumentGraph where
  nodes : List Document
  relationships : List CozoDatabase.DocumentRelationship
deriving DecidableEq, Repr

namespace DocumentService

/-- The state the service operates on: the vector store and the graph overlay.
The `available` flag of the service (graph connectivity probe) is passed
separately. -/
structure ServiceState where
  vec : VecStore
  graph : CozoDatabase.GraphStore
deriving Repr

/-- `DocumentService.get_document`: fetches from the vector facade only;
`None` when absent; otherwise reconstructs metadata types and builds the
`Document`, reading the title with `processed_metadata["title"]` (a `KeyError`
when the stored metadata lacks the key). -/
def get_document (st : VecStore) (docId : String) (now : Nat) :
    Except String (Option Document) :=
  match CozoDatabase.get_vector_document st docId with
  | none => .ok none
  | some gr => do
    let processed := process_metadata_for_model now gr.metadata
    let titleV ← alookE processed "title"
    let title ← ofOption (asStr titleV) "ValidationError: title"
    let dm ← ofOption (mkDocumentMetadata processed now) "ValidationError: metadata"
    .ok (some ⟨gr.id, title, gr.content, dm⟩)

/-- `DocumentService.create_document`: builds the metadata object (author, tags
and path from the caller's map, both timestamps set to now), writes to the
vector facade (title merged into the stored metadata map), mirrors to the graph
facade best-effort (failures swallowed) when available, and returns the
document.  `docId` stands for the freshly generated UUID. -/
def create_document (c : ClientBehavior) (avail : Bool) (s : ServiceState)
    (title content : String) (metadata : List (String × MVal)) (now : Nat)
    (docId : String) : Except String (Document × ServiceState) := do
  let author ← ofOption (asStr (pyGetD metadata "author" (.s ""))) "ValidationError: author"
  let tags ← ofOption (asTags (pyGetD metadata "tags" (.ls []))) "ValidationError: tags"
  let path ← ofOption (asPath (pyGetD metadata "path" .null)) "ValidationError: path"
  let dm : DocumentMetadata := ⟨author, tags, now, now, path⟩
  let doc : Document := ⟨docId, title, content, dm⟩
  let stored := ("title", MVal.s title) :: dm.toDict
  let vec2 ← CozoDatabase.add_vector_document c s.vec docId content stored now
  let graph2 :=
    if avail then
      match CozoDatabase.create_document_node c s.graph docId title dm.toDict now with
      | .ok g2 => g2
      | .error _ => s.graph
    else s.graph
  .ok (doc, ⟨vec2, graph2⟩)

/-- `DocumentService.update_document`: read-modify-write.  Returns `None` when
the document does not exist; otherwise author, tags and path are taken from the
new metadata when present and from the prior document otherwise, `created_at`
is kept from the prior document, `updated_at` is refreshed, the vector record
is re-written (delete then add), and the graph node is mirrored best-effort. -/
def update_document (c : ClientBehavior) (avail : Bool) (s : ServiceState)
    (docId title content : String) (metadata : List (String × MVal)) (now : Nat) :
    Except String (Option Document × ServiceState) := do
  let exOpt ← get_document s.vec docId now
  match exOpt with
  | none => .ok (none, s)
  | some ex => do
    let author ← ofOption (asStr (pyGetD metadata "author" (.s ex.metadata.author)))
      "ValidationError: author"
    let tags ← ofOption (asTags (pyGetD metadata "tags" (.ls ex.metadata.tags)))
      "ValidationError: tags"
    let path ← ofOption (asPath (pyGetD metadata "path"
      (match ex.metadata.path with | some p => .s p | none => .null)))
      "ValidationError: path"
    let dm : DocumentMetadata := ⟨author, tags, ex.metadata.created_at, now, path⟩
    let doc : Document := ⟨docId, title, content, dm⟩
    let stored := ("title", MVal.s title) :: dm.toDict
    let vec2 ← CozoDatabase.update_vector_document c s.vec docId content stored now
    let graph2 :=
      if avail then
        match CozoDatabase.create_document_node c s.graph docId title dm.toDict now with
        | .ok g2 => g2
        | .error _ => s.graph
      else s.graph
    .ok (some doc, ⟨vec2, graph2⟩)

/-- `DocumentService.delete_document`: requires prior existence (read check),
else reports `False`; deletes from the vector facade (best-effort at that
layer) and best-effort from the graph facade. -/
def delete_document (c : ClientBehavior) (avail : Bool) (s : ServiceState)
    (docId : String) (now : Nat) : Except String (Bool × ServiceState) := do
  let exOpt ← get_document s.vec docId now
  match exOpt with
  | none => .ok (false, s)
  | some _ =>
    let vec2 := CozoDatabase.delete_vector_document c s.vec docId
    let graph2 := if avail then CozoDatabase.delete_document_node s.graph docId else s.graph
    .ok (true, ⟨vec2, graph2⟩)

/-- The per-hit body of the loop in `DocumentService.search_documents`:
reads `result["metadata"]`, reconstructs the metadata, builds the `Document`
(title via `processed_metadata["title"]`), then computes the score from
`result["distance"]` — `1 - distance` when the value is a number, `1.0` when it
is `None`, and a `KeyError` when the hit has no "distance" key. -/
def processSearchHit (now : Nat) (hit : List (String × CozoDatabase.PVal)) :
    Except String DocumentSearchResult := do
  let mdv ← CozoDatabase.plook hit "metadata"
  let md ← match mdv with
    | .dict m => Except.ok m
    | _ => Except.error "AttributeError: metadata"
  let processed := process_metadata_for_model now md
  let idv ← CozoDatabase.plook hit "id"
  let did ← match idv with
    | .str v => Except.ok v
    | _ => Except.error "ValidationError: id"
  let titleV ← alookE processed "title"
  let title ← ofOption (asStr titleV) "ValidationError: title"
  let cv ← CozoDatabase.plook hit "content"
  let cont ← match cv with
    | .str v => Except.ok v
    | _ => Except.error "ValidationError: content"
  let dm ← ofOption (mkDocumentMetadata processed now) "ValidationError: metadata"
  let dv ← CozoDatabase.plook hit "distance"
  let score ← match dv with
    | .vnone => Except.ok (1 : Rat)
    | .num q => Except.ok (1 - q)
    | _ => Except.error "TypeError: distance"
  .ok ⟨⟨did, title, cont, dm⟩, score⟩

/-- The result-accumulation loop of `DocumentService.search_documents`: hits are
processed in order and the first exception propagates. -/
def processSearchHits (now : Nat) :
    List (List (String × CozoDatabase.PVal)) → Except String (List DocumentSearchResult)
  | [] => .ok []
  | hit :: rest => do
    let r ← processSearchHit now hit
    let rs ← processSearchHits now rest
    .ok (r :: rs)

/-- `DocumentService.search_documents`: delegates to the vector facade and
reconstructs each hit. -/
def search_documents (c : ClientBehavior) (query : String) (limit : Nat) (now : Nat) :
    Except String (List DocumentSearchResult) :=
  processSearchHits now (CozoDatabase.search_vector_documents c query limit)

/-- The node-collection loop of `DocumentService.get_document_graph`: one
`get_document` read per node id, skipping ids whose read returns `None`. -/
def collectGraphNodes (vec : VecStore) (now : Nat) :
    List CozoDatabase.GraphNodeView → Except String (List Document)
  | [] => .ok []
  | n :: rest => do
    let d ← get_document vec n.id now
    let ds ← collectGraphNodes vec now rest
    .ok (match d with | some doc => doc :: ds | none => ds)

/-- `DocumentService.get_document_graph`: empty graph when the graph facade is
unavailable; otherwise delegates to the facade (whose `depth` argument is
unused) and re-reads each node through `get_document`. -/
def get_document_graph (avail : Bool) (vec : VecStore) (g : CozoDatabase.GraphStore)
    (now : Nat) (depth : Nat) : Except String DocumentGraph :=
  if avail then do
    let gd := CozoDatabase.get_document_graph g depth
    let nodes ← collectGraphNodes vec now gd.nodes
    .ok ⟨nodes, gd.relationships⟩
  else .ok ⟨[], []⟩

end DocumentService

@[simp] theorem ofOption_some (a : α) (msg : String) : ofOption (some a) msg = .ok a := rfl

@[simp] theorem ofOption_none (msg : String) : ofOption (none : Option α) msg = .error msg := rfl

@[simp] theorem exceptBind_ok (a : α) (f : α → Except String β) :
    (bind (Except.ok a) f : Except String β) = f a := rfl

@[simp] theorem exceptBind_error (e : String) (f : α → Except String β) :
    (bind (Except.error e) f : Except String β) = Except.error e := rfl

/-- Claim C1: for every valid title, content and metadata map, `create_document`
followed by `get_document` on the returned id yields a document whose title and
content equal the inputs and whose metadata round-trips: the tag list comes back
as a list and the created_at/updated_at timestamps parse back to the stored
values (both equal to the creation time `now`). -/
theorem create_then_get_roundtrip
    (c : ClientBehavior) (avail : Bool) (s : DocumentService.ServiceState)
    (title content : String) (meta : List (String × MVal)) (now now2 : Nat)
    (docId : String) (a : String) (tg : List String) (p : Option String)
    (hput : c.putOk = true)
    (ha : asStr (pyGetD meta "author" (MVal.s "")) = some a)
    (ht : asTags (pyGetD meta "tags" (MVal.ls [])) = some tg)
    (hp : asPath (pyGetD meta "path" MVal.null) = some p) :
    ∃ s2 : DocumentService.ServiceState,
      DocumentService.create_document c avail s title content meta now docId
        = .ok (⟨docId, title, content, ⟨a, tg, now, now, p⟩⟩, s2)
      ∧ DocumentService.get_document s2.vec docId now2
        = .ok (some ⟨docId, title, content, ⟨a, tg, now, now, p⟩⟩) := by
  simp only [DocumentService.create_document, ha, ht, hp, ofOption_some, exceptBind_ok,
    CozoDatabase.add_vector_document, hput, if_true]
  refine ⟨_, rfl, ?_⟩
  rcases p with _ | pv <;>
    simp [DocumentService.get_document, CozoDatabase.get_vector_document, List.find?,
      DocumentMetadata.toDict, process_metadata_for_storage, process_metadata_for_model,
      modelTags, modelDate, fromisoformat_isoformat, alookE, alook, mkDocumentMetadata,
      asStr, asTags, asTime, asPath, Option.bind, ofOption]

/-- A client whose structured calls all succeed and whose search returns no
rows; used to instantiate theorems at concrete inputs. -/
def okClient : ClientBehavior :=
  ⟨true, true, true, true, fun _ => [0], fun _ _ => .ok []⟩

/-- Witness for C1: the round trip at a concrete input. -/
theorem create_then_get_roundtrip_witness :
    okClient.putOk = true
    ∧ asStr (pyGetD [("author", MVal.s "al"), ("tags", MVal.ls ["x", "y"])]
        "author" (MVal.s "")) = some "al"
    ∧ asTags (pyGetD [("author", MVal.s "al"), ("tags", MVal.ls ["x", "y"])]
        "tags" (MVal.ls [])) = some ["x", "y"]
    ∧ asPath (pyGetD [("author", MVal.s "al"), ("tags", MVal.ls ["x", "y"])]
        "path" MVal.null) = some none
    ∧ ∃ s2 : DocumentService.ServiceState,
        DocumentService.create_document okClient true ⟨[], ⟨[], []⟩⟩ "T" "C"
          [("author", MVal.s "al"), ("tags", MVal.ls ["x", "y"])] 5 "id1"
          = .ok (⟨"id1", "T", "C", ⟨"al", ["x", "y"], 5, 5, none⟩⟩, s2)
        ∧ DocumentService.get_document s2.vec "id1" 9
          = .ok (some ⟨"id1", "T", "C", ⟨"al", ["x", "y"], 5, 5, none⟩⟩) :=
  ⟨rfl, rfl, rfl, rfl,
   create_then_get_roundtrip okClient true ⟨[], ⟨[], []⟩⟩ "T" "C"
     [("author", MVal.s "al"), ("tags", MVal.ls ["x", "y"])] 5 9 "id1"
     "al" ["x", "y"] none rfl rfl rfl rfl⟩

/-- Claim C2: for every existing document, `update_document` followed by
`get_document` reflects the new title and content, keeps the prior
`created_at`, and takes author, tags and path from the new metadata when
present and otherwise from the prior document's metadata (the final three
conjunct pairs make the merge rule explicit). -/
theorem update_then_get_merges
    (c : ClientBehavior) (avail : Bool) (s : DocumentService.ServiceState)
    (docId title content : String) (meta : List (String × MVal)) (now now2 : Nat)
    (ex : Document) (a : String) (tg : List String) (p : Option String)
    (hput : c.putOk = true)
    (hex : DocumentService.get_document s.vec docId now = .ok (some ex))
    (ha : asStr (pyGetD meta "author" (MVal.s ex.metadata.author)) = some a)
    (ht : asTags (pyGetD meta "tags" (MVal.ls ex.metadata.tags)) = some tg)
    (hp : asPath (pyGetD meta "path"
        (match ex.metadata.path with | some q => MVal.s q | none => MVal.null)) = some p) :
    ∃ s2 : DocumentService.ServiceState,
      DocumentService.update_document c avail s docId title content meta now
        = .ok (some ⟨docId, title, content, ⟨a, tg, ex.metadata.created_at, now, p⟩⟩, s2)
      ∧ DocumentService.get_document s2.vec docId now2
        = .ok (some ⟨docId, title, content, ⟨a, tg, ex.metadata.created_at, now, p⟩⟩)
      ∧ (alook meta "author" = none → a = ex.metadata.author)
      ∧ (∀ x, alook meta "author" = some (MVal.s x) → a = x)
      ∧ (alook meta "tags" = none → tg = ex.metadata.tags)
      ∧ (∀ x, alook meta "tags" = some (MVal.ls x) → tg = x)
      ∧ (alook meta "path" = none → p = ex.metadata.path)
      ∧ (∀ x, alook meta "path" = some (MVal.s x) → p = some x) := by
  simp only [DocumentService.update_document, hex, exceptBind_ok, ha, ht, hp, ofOption_some,
    CozoDatabase.update_vector_document, CozoDatabase.add_vector_document, hput, if_true]
  refine ⟨_, rfl, ?_, ?_, ?_, ?_, ?_, ?_, ?_⟩
  · rcases p with _ | pv <;>
      simp [DocumentService.get_document, CozoDatabase.get_vector_document, List.find?,
        DocumentMetadata.toDict, process_metadata_for_storage, process_metadata_for_model,
        modelTags, modelDate, fromisoformat_isoformat, alookE, alook, mkDocumentMetadata,
        asStr, asTags, asTime, asPath, Option.bind, ofOption]
  · intro h
    rw [pyGetD, h] at ha
    simp [asStr] at ha
    exact ha.symm
  · intro x hx
    rw [pyGetD, hx] at ha
    simp [asStr] at ha
    exact ha.symm
  · intro h
    rw [pyGetD, h] at ht
    simp [asTags] at ht
    exact ht.symm
  · intro x hx
    rw [pyGetD, hx] at ht
    simp [asTags] at ht
    exact ht.symm
  · intro h
    rw [pyGetD, h] at hp
    rcases hq : ex.metadata.path with _ | q <;> rw [hq] at hp <;> simp [asPath] at hp <;>
      simp [hp]
  · intro x hx
    rw [pyGetD, hx] at hp
    simp [asPath] at hp
    exact hp.symm

/-- A concrete stored vector record used to instantiate theorems. -/
def exRec1 : VecRec :=
  ⟨"id1", "C", [0],
   [("title", MVal.s "T"), ("author", MVal.s "al"), ("tags", MVal.ls ["x"]),
    ("created_at", MVal.s "5"), ("updated_at", MVal.s "5"), ("path", MVal.null)],
   "5", "5"⟩

/-- The document that `get_document` reconstructs from `exRec1`. -/
def exDoc1 : Document := ⟨"id1", "T", "C", ⟨"al", ["x"], 5, 5, none⟩⟩

/-- Witness for C2: update at a concrete input (new author given, tags and path
merged from the prior document). -/
theorem update_then_get_merges_witness :
    okClient.putOk = true
    ∧ DocumentService.get_document [exRec1] "id1" 9 = .ok (some exDoc1)
    ∧ asStr (pyGetD [("author", MVal.s "neo")] "author" (MVal.s exDoc1.metadata.author))
        = some "neo"
    ∧ asTags (pyGetD [("author", MVal.s "neo")] "tags" (MVal.ls exDoc1.metadata.tags))
        = some ["x"]
    ∧ asPath (pyGetD [("author", MVal.s "neo")] "path"
        (match exDoc1.metadata.path with | some q => MVal.s q | none => MVal.null))
        = some none
    ∧ ∃ s2 : DocumentService.ServiceState,
        DocumentService.update_document okClient false ⟨[exRec1], ⟨[], []⟩⟩ "id1" "T2" "C2"
          [("author", MVal.s "neo")] 11
          = .ok (some ⟨"id1", "T2", "C2", ⟨"neo", ["x"], 5, 11, none⟩⟩, s2)
        ∧ DocumentService.get_document s2.vec "id1" 12
          = .ok (some ⟨"id1", "T2", "C2", ⟨"neo", ["x"], 5, 11, none⟩⟩) := by
  refine ⟨rfl, rfl, rfl, rfl, rfl, ?_⟩
  have h := update_then_get_merges okClient false ⟨[exRec1], ⟨[], []⟩⟩ "id1" "T2" "C2"
    [("author", MVal.s "neo")] 11 12 exDoc1 "neo" ["x"] none rfl rfl rfl rfl rfl
  exact ⟨h.choose, h.choose_spec.1, h.choose_spec.2.1⟩

/-- Filtering away an id leaves no row with that id to find. -/
theorem find?_filter_self (st : VecStore) (docId : String) :
    (st.filter (fun r => r.id != docId)).find? (fun r => r.id == docId) = none := by
  induction st with
  | nil => rfl
  | cons r rs ih =>
    by_cases h : r.id = docId
    · simp [List.filter_cons, h, ih]
    · simp [List.filter_cons, h, ih, List.find?]

/-- Claim C6: after `delete_document` succeeds on an id (with an effective
store delete), `get_document` on that id returns not-found, and a second
`delete_document` on the same id returns `False` rather than raising; the
facade-level delete swallows store failures (the store is returned unchanged,
never an exception). -/
theorem delete_then_get_not_found
    (c : ClientBehavior) (avail : Bool) (s s2 : DocumentService.ServiceState)
    (docId : String) (now now2 now3 : Nat)
    (hdel : c.deleteOk = true)
    (h : DocumentService.delete_document c avail s docId now = .ok (true, s2)) :
    DocumentService.get_document s2.vec docId now2 = .ok none
    ∧ DocumentService.delete_document c avail s2 docId now3 = .ok (false, s2)
    ∧ (∀ c' : ClientBehavior, ∀ st : VecStore, ∀ i : String,
        c'.deleteOk = false → CozoDatabase.delete_vector_document c' st i = st) := by
  rcases hget : DocumentService.get_document s.vec docId now with e | exOpt
  · rw [DocumentService.delete_document, hget, exceptBind_error] at h
    exact absurd h (by simp)
  · rw [DocumentService.delete_document, hget, exceptBind_ok] at h
    cases exOpt with
    | none => simp at h
    | some d =>
      simp only [Except.ok.injEq, Prod.mk.injEq, true_and] at h
      have hvec : s2.vec = CozoDatabase.delete_vector_document c s.vec docId := by
        rw [← h]
      have hvec2 : s2.vec = s.vec.filter (fun r => r.id != docId) := by
        rw [hvec, CozoDatabase.delete_vector_document, hdel]
        simp
      have hnone : DocumentService.get_document s2.vec docId now2 = .ok none := by
        rw [DocumentService.get_document]
        rw [CozoDatabase.get_vector_document, hvec2, find?_filter_self]
        rfl
      refine ⟨hnone, ?_, ?_⟩
      · have hnone3 : DocumentService.get_document s2.vec docId now3 = .ok none := by
          rw [DocumentService.get_document]
          rw [CozoDatabase.get_vector_document, hvec2, find?_filter_self]
          rfl
        rw [DocumentService.delete_document, hnone3, exceptBind_ok]
      · intro c' st i h'
        simp [CozoDatabase.delete_vector_document, h']

/-- Witness for C6 at a concrete input: one stored document, deleted once and
then again. -/
theorem delete_then_get_not_found_witness :
    okClient.deleteOk = true
    ∧ DocumentService.delete_document okClient false ⟨[exRec1], ⟨[], []⟩⟩ "id1" 9
        = .ok (true, ⟨[], ⟨[], []⟩⟩)
    ∧ (DocumentService.get_document (⟨[], ⟨[], []⟩⟩ : DocumentService.ServiceState).vec
         "id1" 10 = .ok none
       ∧ DocumentService.delete_document okClient false ⟨[], ⟨[], []⟩⟩ "id1" 11
           = .ok (false, ⟨[], ⟨[], []⟩⟩)
       ∧ (∀ c' : ClientBehavior, ∀ st : VecStore, ∀ i : String,
           c'.deleteOk = false → CozoDatabase.delete_vector_document c' st i = st)) :=
  ⟨rfl, rfl,
   delete_then_get_not_found okClient false ⟨[exRec1], ⟨[], []⟩⟩ ⟨[], ⟨[], []⟩⟩
     "id1" 9 10 11 rfl rfl⟩

/-- Claim C5: the facade-level vector search returns the empty list (instead of
raising — its return type carries no exception) whenever the underlying store
call errors or no rows match, for every query string and limit. -/
theorem search_empty_on_error_or_no_rows
    (c : ClientBehavior) (query : String) (n_results : Nat)
    (h : c.searchResp query n_results = .error ()
         ∨ c.searchResp query n_results = .ok []) :
    CozoDatabase.search_vector_documents c query n_results = [] := by
  rcases h with h | h <;> simp [CozoDatabase.search_vector_documents, h]

/-- Witness for C5: a client whose search returns no rows. -/
theorem search_empty_on_error_or_no_rows_witness :
    (okClient.searchResp "q" 7 = .error () ∨ okClient.searchResp "q" 7 = .ok [])
    ∧ CozoDatabase.search_vector_documents okClient "q" 7 = [] :=
  ⟨Or.inr rfl, search_empty_on_error_or_no_rows okClient "q" 7 (Or.inr rfl)⟩

/-- If an unforced simple ensure step succeeds, the relation is in the
resulting catalog and every previously present relation remains. -/
theorem ensure_simple_relation_ok (c : ClientBehavior) (ss ss' : CozoDatabase.SchemaState)
    (name : String)
    (h : CozoDatabase.ensure_simple_relation c false ss name = .ok ss') :
    ss'.rels.contains name = true
    ∧ (∀ n, ss.rels.contains n = true → ss'.rels.contains n = true) := by
  rw [CozoDatabase.ensure_simple_relation] at h
  cases hex : CozoDatabase.relation_exists c ss name with
  | true =>
    simp only [hex, Bool.not_false, Bool.true_and, if_true, Except.ok.injEq] at h
    subst h
    rw [CozoDatabase.relation_exists] at hex
    cases hcat : c.catalogOk with
    | true =>
      rw [hcat] at hex
      simp only [if_true] at hex
      exact ⟨hex, fun n hn => hn⟩
    | false =>
      rw [hcat] at hex
      simp at hex
  | false =>
    simp only [hex, Bool.not_false, Bool.true_and, Bool.false_eq_true, if_false] at h
    rw [CozoDatabase.createRelationScript] at h
    cases hmem : ss.rels.contains name with
    | true =>
      simp only [hmem, if_true] at h
      exact absurd h (by simp)
    | false =>
      simp only [hmem, Bool.false_eq_true, if_false, Except.ok.injEq] at h
      subst h
      refine ⟨by simp, fun n hn => ?_⟩
      simp only [List.contains_cons, hn, Bool.or_true]

/-- With a working catalog query, an unforced simple ensure step on an existing
relation issues no script and returns the state unchanged. -/
theorem ensure_simple_relation_skip (c : ClientBehavior) (ss : CozoDatabase.SchemaState)
    (name : String) (hc : c.catalogOk = true) (hmem : ss.rels.contains name = true) :
    CozoDatabase.ensure_simple_relation c false ss name = .ok ss := by
  rw [CozoDatabase.ensure_simple_relation]
  have hcond : (!false && CozoDatabase.relation_exists c ss name) = true := by
    rw [CozoDatabase.relation_exists, hc]
    simpa using hmem
  rw [if_pos hcond]

/-- If the unforced vector-schema step succeeds, the relation is in the
resulting catalog and every previously present relation remains. -/
theorem create_vector_schema_ok (c : ClientBehavior) (ss ss' : CozoDatabase.SchemaState)
    (h : CozoDatabase.create_vector_document_schema c false ss = .ok ss') :
    ss'.rels.contains "vector_document" = true
    ∧ (∀ n, ss.rels.contains n = true → ss'.rels.contains n = true) := by
  rw [CozoDatabase.create_vector_document_schema] at h
  cases hex : CozoDatabase.relation_exists c ss "vector_document" with
  | true =>
    simp only [hex, Bool.not_false, Bool.true_and, if_true, Except.ok.injEq] at h
    subst h
    rw [CozoDatabase.relation_exists] at hex
    cases hcat : c.catalogOk with
    | true =>
      rw [hcat] at hex
      simp only [if_true] at hex
      exact ⟨hex, fun n hn => hn⟩
    | false =>
      rw [hcat] at hex
      simp at hex
  | false =>
    simp only [hex, Bool.not_false, Bool.true_and, Bool.false_eq_true, if_false] at h
    rw [CozoDatabase.createRelationScript] at h
    cases hmem : ss.rels.contains "vector_document" with
    | true =>
      simp only [hmem, if_true] at h
      simp at h
    | false =>
      simp only [hmem, Bool.false_eq_true, if_false, exceptBind_ok] at h
      rw [CozoDatabase.createIndexScript] at h
      cases hidx : ss.idxs.contains "vector_document:embedding_idx" with
      | true =>
        simp only [hidx, if_true] at h
        simp at h
      | false =>
        simp only [hidx, Bool.false_eq_true, if_false, Except.ok.injEq] at h
        subst h
        refine ⟨by simp, fun n hn => ?_⟩
        simp only [List.contains_cons, hn, Bool.or_true]

/-- With a working catalog query, the unforced vector-schema step on an
existing relation issues no script and returns the state unchanged. -/
theorem create_vector_schema_skip (c : ClientBehavior) (ss : CozoDatabase.SchemaState)
    (hc : c.catalogOk = true) (hmem : ss.rels.contains "vector_document" = true) :
    CozoDatabase.create_vector_document_schema c false ss = .ok ss := by
  rw [CozoDatabase.create_vector_document_schema]
  have hcond : (!false && CozoDatabase.relation_exists c ss "vector_document") = true := by
    rw [CozoDatabase.relation_exists, hc]
    simpa using hmem
  rw [if_pos hcond]

/-- Claim C7: unforced schema creation is idempotent when the catalog query
works — each relation's creation script is issued only if the relation is
absent, so after one successful ensure-schemas call, a second unforced call
issues nothing and succeeds (no duplicate-relation error). -/
theorem verify_schemas_idempotent (c : ClientBehavior)
    (ss ss2 : CozoDatabase.SchemaState) (hc : c.catalogOk = true)
    (h : CozoDatabase.verify_or_create_schemas c false ss = .ok ss2) :
    CozoDatabase.verify_or_create_schemas c false ss2 = .ok ss2 := by
  rw [CozoDatabase.verify_or_create_schemas] at h
  rcases h1 : CozoDatabase.create_document_schema c false ss with e | s1
  · rw [h1] at h
    simp at h
  · rw [h1, exceptBind_ok] at h
    rcases h2 : CozoDatabase.create_relationship_schema c false s1 with e | sb
    · rw [h2] at h
      simp at h
    · rw [h2, exceptBind_ok] at h
      have d1 := ensure_simple_relation_ok c ss s1 "document" h1
      have d2 := ensure_simple_relation_ok c s1 sb "relationship" h2
      have d3 := create_vector_schema_ok c sb ss2 h
      have m1 : ss2.rels.contains "document" = true := d3.2 _ (d2.2 _ d1.1)
      have m2 : ss2.rels.contains "relationship" = true := d3.2 _ d2.1
      have m3 : ss2.rels.contains "vector_document" = true := d3.1
      rw [CozoDatabase.verify_or_create_schemas,
        show CozoDatabase.create_document_schema c false ss2 = .ok ss2 from
          ensure_simple_relation_skip c ss2 "document" hc m1, exceptBind_ok,
        show CozoDatabase.create_relationship_schema c false ss2 = .ok ss2 from
          ensure_simple_relation_skip c ss2 "relationship" hc m2, exceptBind_ok]
      exact create_vector_schema_skip c ss2 hc m3

/-- Witness for C7: ensure-schemas from an empty catalog, then again. -/
theorem verify_schemas_idempotent_witness :
    okClient.catalogOk = true
    ∧ CozoDatabase.verify_or_create_schemas okClient false ⟨[], []⟩
        = .ok ⟨["vector_document", "relationship", "document"],
               ["vector_document:embedding_idx"]⟩
    ∧ CozoDatabase.verify_or_create_schemas okClient false
        ⟨["vector_document", "relationship", "document"], ["vector_document:embedding_idx"]⟩
        = .ok ⟨["vector_document", "relationship", "document"],
               ["vector_document:embedding_idx"]⟩ :=
  ⟨rfl, rfl,
   verify_schemas_idempotent okClient ⟨[], []⟩
     ⟨["vector_document", "relationship", "document"], ["vector_document:embedding_idx"]⟩
     rfl rfl⟩

/-- Claim C8: deleting a document node also deletes every relationship in which
the node is the source or the target (no remaining relationship involves the
id), and `get_related_documents` on the deleted id over the remaining state
returns the empty list (for any relationship-type filter). -/
theorem delete_node_removes_relationships (g : CozoDatabase.GraphStore)
    (docId : String) (relType : Option String) :
    (CozoDatabase.delete_document_node g docId).rels.filter
        (fun r => r.source_id == docId || r.target_id == docId) = []
    ∧ CozoDatabase.get_related_documents
        (CozoDatabase.delete_document_node g docId) docId relType = [] := by
  constructor
  · rw [CozoDatabase.delete_document_node]
    simp only [List.filter_filter]
    have : ∀ r : CozoDatabase.GraphRel,
        ((r.source_id == docId || r.target_id == docId)
          && !(r.source_id == docId || r.target_id == docId)) = false := by
      intro r
      cases r.source_id == docId || r.target_id == docId <;> rfl
    simp only [this, List.filter_false]
  · rw [CozoDatabase.get_related_documents, List.flatMap_eq_nil_iff]
    intro r hr
    rw [CozoDatabase.delete_document_node] at hr
    have hb : (!(r.source_id == docId || r.target_id == docId)) = true :=
      (List.mem_filter.mp hr).2
    have hsrc : (r.source_id == docId) = false := by
      cases h1 : r.source_id == docId
      · rfl
      · rw [h1] at hb
        simp at hb
    simp [hsrc]

/-- Claim C9: `get_document_graph` ignores its depth argument at both the
facade and the service layer: any two depth values over the same store state
give identical results, and the facade result is always the full node and
relationship set. -/
theorem document_graph_ignores_depth (g : CozoDatabase.GraphStore) (d1 d2 : Nat)
    (avail : Bool) (vec : VecStore) (now : Nat) :
    CozoDatabase.get_document_graph g d1 = CozoDatabase.get_document_graph g d2
    ∧ (CozoDatabase.get_document_graph g d1).nodes
        = g.docs.map (fun d => ⟨d.id, d.title, d.metadata⟩)
    ∧ (CozoDatabase.get_document_graph g d1).relationships
        = g.rels.map (fun r => ⟨r.source_id, r.target_id, r.rel_type, r.properties⟩)
    ∧ DocumentService.get_document_graph avail vec g now d1
        = DocumentService.get_document_graph avail vec g now d2 :=
  ⟨rfl, rfl, rfl, rfl⟩

/-- Metadata-type reconstruction preserves the absence of a key. -/
theorem alook_process_none (now : Nat) (m : List (String × MVal)) (key : String)
    (h : alook m key = none) :
    alook (process_metadata_for_model now m) key = none := by
  induction m with
  | nil => rfl
  | cons kv rest ih =>
    cases kv with
    | mk k v =>
      rw [alook] at h
      by_cases hk : k = key
      · rw [if_pos hk] at h
        exact absurd h (by simp)
      · rw [if_neg hk] at h
        rw [process_metadata_for_model, List.map_cons, alook]
        rw [if_neg hk]
        exact ih h

/-- A client whose search returns a single row with an undecodable metadata
blob; used to instantiate theorems at concrete inputs. -/
def noTitleClient : ClientBehavior :=
  ⟨true, true, true, true, fun _ => [0], fun _ _ => .ok [⟨1, "id9", "C", none⟩]⟩

/-- Claim C10: the service read path is partial in the shape of the stored
metadata — when a stored record's metadata map lacks the "title" key (for
example after the facade substituted empty metadata on a JSON parse failure),
`get_document` raises a `KeyError`, and `search_documents` raises a `KeyError`
when a hit's metadata lacks the key, instead of returning `None` or skipping
the hit. -/
theorem missing_title_raises (st : VecStore) (docId : String)
    (gr : CozoDatabase.GetDocResult) (now : Nat) (c : ClientBehavior) (q : String)
    (k : Nat) (row : SearchRow) (rest : List SearchRow)
    (hg : CozoDatabase.get_vector_document st docId = some gr)
    (hti : alook gr.metadata "title" = none)
    (hrow : c.searchResp q k = .ok (row :: rest))
    (hmd : alook (row.md.getD []) "title" = none) :
    DocumentService.get_document st docId now = .error "KeyError: title"
    ∧ DocumentService.search_documents c q k now = .error "KeyError: title" := by
  have he : alookE (process_metadata_for_model now gr.metadata) "title"
      = .error ("KeyError: " ++ "title") := by
    rw [alookE, alook_process_none now gr.metadata "title" hti]
  have he2 : alookE (process_metadata_for_model now (row.md.getD [])) "title"
      = .error ("KeyError: " ++ "title") := by
    rw [alookE, alook_process_none now (row.md.getD []) "title" hmd]
  constructor
  · simp only [DocumentService.get_document, hg]
    simp only [he, exceptBind_error]
    rfl
  · simp only [DocumentService.search_documents, CozoDatabase.search_vector_documents,
      hrow, List.map_cons, DocumentService.processSearchHits]
    have hh : DocumentService.processSearchHit now
        [("id", .str row.id), ("content", .str row.content),
         ("metadata", .dict (row.md.getD [])),
         ("score", .num (if 0 < row.dist then 1 / (1 + row.dist) else 1))]
        = .error ("KeyError: " ++ "title") := by
      rw [DocumentService.processSearchHit]
      simp only [CozoDatabase.plook]
      simp [he2]
    simp only [hh, exceptBind_error]
    rfl

/-- Witness for C10: a stored record and a search hit with empty metadata. -/
theorem missing_title_raises_witness :
    CozoDatabase.get_vector_document [⟨"id9", "C", [0], [], "5", "5"⟩] "id9"
      = some ⟨"id9", "C", []⟩
    ∧ alook (⟨"id9", "C", ([] : List (String × MVal))⟩ : CozoDatabase.GetDocResult).metadata
        "title" = none
    ∧ noTitleClient.searchResp "q" 3 = .ok [⟨1, "id9", "C", none⟩]
    ∧ alook ((⟨1, "id9", "C", none⟩ : SearchRow).md.getD []) "title" = none
    ∧ DocumentService.get_document [⟨"id9", "C", [0], [], "5", "5"⟩] "id9" 7
        = .error "KeyError: title"
    ∧ DocumentService.search_documents noTitleClient "q" 3 7
        = .error "KeyError: title" := by
  refine ⟨rfl, rfl, rfl, rfl, ?_⟩
  exact missing_title_raises [⟨"id9", "C", [0], [], "5", "5"⟩] "id9" ⟨"id9", "C", []⟩ 7
    noTitleClient "q" 3 ⟨1, "id9", "C", none⟩ [] rfl rfl rfl rfl

/-- A client whose search returns one well-formed row (metadata contains a
title) at distance 1. -/
def scoreOnlyClient : ClientBehavior :=
  ⟨true, true, true, true, fun _ => [0],
   fun _ _ => .ok [⟨1, "d1", "hello", some [("title", MVal.s "T")]⟩]⟩

/-- Claim C3 (code bug): the facade's search hits carry a "score" key
(`1 / (1 + dist)`) and no "distance" key, while the service reads
`result["distance"]`; consequently `search_documents` raises a `KeyError` on
every hit instead of producing a `DocumentSearchResult` with score `1.0` as the
claim (and the repository's own functional search test) expects. -/
theorem search_distance_key_mismatch :
    CozoDatabase.search_vector_documents scoreOnlyClient "q" 5
      = [[("id", .str "d1"), ("content", .str "hello"),
          ("metadata", .dict [("title", MVal.s "T")]),
          ("score", .num (1 / 2))]]
    ∧ DocumentService.search_documents scoreOnlyClient "q" 5 0
      = .error "KeyError: distance" := by
  constructor
  · show List.map _ _ = _
    simp [CozoDatabase.search_vector_documents]
    norm_num
  · rfl

/-- A client whose structured `put` raises but whose manual `run` queries
succeed. -/
def fallbackClient : ClientBehavior :=
  ⟨false, true, true, true, fun _ => [0], fun _ _ => .ok []⟩

/-- Counterexample for C4: with a client whose structured upsert raises and
whose manual query succeeds, `add_vector_document` raises anyway — the
vector-document write path performs no second attempt (unlike the graph node
write path, which succeeds on the same client via its fallback). -/
theorem add_vector_document_no_fallback :
    fallbackClient.putOk = false
    ∧ fallbackClient.runOk = true
    ∧ CozoDatabase.add_vector_document fallbackClient [] "d1" "x" [] 0
        = .error "Failed to add vector document"
    ∧ ∃ g2, CozoDatabase.create_document_node fallbackClient ⟨[], []⟩ "d1" "T" [] 0
        = .ok g2 :=
  ⟨rfl, rfl, rfl, ⟨_, rfl⟩⟩

/-- Claim C4 as amended: the two-tier fallback (structured upsert, then one
manually constructed quote-escaped query, raising only when both fail) applies
to the graph write path — `create_document_node` and `create_relationship` —
while the vector-document write path (`add_vector_document`, and
`update_vector_document` built on it) raises as soon as the structured upsert
raises, with no second attempt. -/
theorem write_fallback_tiering (c : ClientBehavior) (st : VecStore)
    (g : CozoDatabase.GraphStore) (docId content title src tgt typ : String)
    (md props : List (String × MVal)) (now : Nat) :
    ((∃ e, CozoDatabase.add_vector_document c st docId content md now = .error e)
      ↔ c.putOk = false)
    ∧ ((∃ e, CozoDatabase.update_vector_document c st docId content md now = .error e)
      ↔ c.putOk = false)
    ∧ ((∃ e, CozoDatabase.create_document_node c g docId title md now = .error e)
      ↔ (c.putOk = false ∧ c.runOk = false))
    ∧ ((∃ e, CozoDatabase.create_relationship c g src tgt typ props now = .error e)
      ↔ (c.putOk = false ∧ c.runOk = false)) := by
  cases hput : c.putOk <;> cases hrun : c.runOk <;>
    simp [CozoDatabase.add_vector_document, CozoDatabase.update_vector_document,
      CozoDatabase.delete_vector_document, CozoDatabase.create_document_node,
      CozoDatabase.create_relationship, hput, hrun]
